import Mathlib

/-!
Shallow embedding of the to-do application's core logic:

* the ownership-scoped CRUD handlers of `src/server/routes/todos.js`;
* the client session manager of `src/contexts/AuthContext.tsx`;
* the view-routing components of `src/app/index.tsx` and
  `src/app/(tabs)/_layout.tsx`.

The document store is a `List Todo` kept in insertion order; Mongo object ids
are `Nat`, dates are carried as the strings the JSON bodies supply, and user
identities are `Nat`.  JSON bodies with optional string fields are `Option
String`; in JavaScript the only falsy string is the empty string, which is how
the route's `x || old` merges are rendered.  The Mongoose `Todo` schema file
(`src/server/models/Todo.js`) is not among the provided sources, so its
save-time validation and defaults are modelled from the spec where marked.
-/

namespace TodoApp

/-- A stored Todo document, after `src/types/todo.ts` and the server's usage:
`_id`, `title`, `description`, `completed`, `priority` (a string, `low` /
`medium` / `high`), optional `dueDate`, the owning `user` id, and the
`createdAt` / `updatedAt` timestamps maintained by the schema. -/
structure Todo where
  id : Nat
  title : String
  description : String
  completed : Bool
  priority : String
  dueDate : Option String
  user : Nat
  createdAt : Nat
  updatedAt : Nat
deriving Repr, DecidableEq

/-- Body of `POST /api/todos` (`CreateTodoData` in `src/types/todo.ts`): every
field may be absent; the server destructures `{title, description, priority,
dueDate}` from `req.body`. -/
structure CreateBody where
  title : Option String
  description : Option String
  priority : Option String
  dueDate : Option String
deriving Repr, DecidableEq

/-- Body of `PUT /api/todos/:id` (`UpdateTodoData` in `src/types/todo.ts`):
any subset of `{title, description, completed, priority, dueDate}`. -/
structure UpdateBody where
  title : Option String
  description : Option String
  completed : Option Bool
  priority : Option String
  dueDate : Option String
deriving Repr, DecidableEq

/-- `Todo.findOne({ _id: req.params.id, user: req.user._id })`: the first
document in the collection matching both the id and the owner. -/
def findOne (db : List Todo) (id caller : Nat) : Option Todo :=
  db.find? (fun t => t.id == id && t.user == caller)

/-- Modelled from the spec: the `priority` enum of the Mongoose `Todo` schema
(`src/server/models/Todo.js` is not among the provided sources); the spec's
data model has `priority ∈ {low, medium, high}`. -/
def validPriority (p : String) : Bool :=
  p == "low" || p == "medium" || p == "high"

/-- Modelled from the spec: save-time behaviour of the Mongoose `Todo` schema
(`src/server/models/Todo.js` is not among the provided sources).  Per the
spec: creation "fails with a Validation error if `title` is empty/missing",
"`priority` defaults to `medium` if omitted", omitted `description` is empty,
`completed = false`, timestamps are set to now, and `priority` is drawn from
`{low, medium, high}`.  `none` means `save()` threw a validation error. -/
def saveNewTodo (caller : Nat) (title description priority dueDate : Option String)
    (id now : Nat) : Option Todo :=
  match title with
  | none => none
  | some s =>
    if s = "" then none
    else if validPriority (priority.getD "medium") then
      some { id := id, title := s, description := description.getD "",
             completed := false, priority := priority.getD "medium",
             dueDate := dueDate, user := caller, createdAt := now,
             updatedAt := now }
    else none

/-- The `dueDate: dueDate ? new Date(dueDate) : undefined` coercion in the
create route: a falsy value (absent or the empty string) yields no date. -/
def createDue (d : Option String) : Option String :=
  match d with
  | some s => if s = "" then none else some s
  | none => none

/-- `router.post('/')` of `src/server/routes/todos.js`: builds the document
with `dueDate: dueDate ? new Date(dueDate) : undefined` (for string bodies the
empty string is the only falsy value) and `user: req.user._id`, then saves.
Success answers 201 with the record appended to the collection; any error from
`save()` — validation included — is caught and answered as a generic 500, with
nothing persisted.  The result is `((status, body), collection)`. -/
def createTodo (db : List Todo) (caller : Nat) (b : CreateBody) (id now : Nat) :
    (Nat × Option Todo) × List Todo :=
  match saveNewTodo caller b.title b.description b.priority (createDue b.dueDate) id now with
  | some t => ((201, some t), db ++ [t])
  | none => ((500, none), db)

/-- The field merge of `router.put('/:id')` (lines 47–51 of
`src/server/routes/todos.js`):
`todo.title = title || todo.title` (a supplied empty string is falsy and keeps
the old title), `todo.description = description !== undefined ? description :
todo.description`, `todo.completed = completed !== undefined ? completed :
todo.completed`, `todo.priority = priority || todo.priority`,
`todo.dueDate = dueDate ? new Date(dueDate) : todo.dueDate`; saving refreshes
`updatedAt`. -/
def applyUpdate (t : Todo) (b : UpdateBody) (now : Nat) : Todo :=
  { t with
    title := match b.title with
             | some s => if s = "" then t.title else s
             | none => t.title
    description := b.description.getD t.description
    completed := b.completed.getD t.completed
    priority := match b.priority with
                | some p => if p = "" then t.priority else p
                | none => t.priority
    dueDate := match b.dueDate with
               | some d => if d = "" then t.dueDate else some d
               | none => t.dueDate
    updatedAt := now }

/-- Modelled from the spec: document-level validation re-applied when an
updated document is saved (the Mongoose `Todo` schema is not among the
provided sources): the title must be non-empty and the priority in the enum. -/
def validTodo (t : Todo) : Bool :=
  t.title != "" && validPriority t.priority

/-- `router.put('/:id')` of `src/server/routes/todos.js`: owner-scoped
`findOne`; 404 with the collection untouched when no owned document matches;
otherwise the field merge followed by `save()` (500 and no change if
validation throws).  The result is `((status, body), collection)`. -/
def updateTodo (db : List Todo) (caller id : Nat) (b : UpdateBody) (now : Nat) :
    (Nat × Option Todo) × List Todo :=
  match findOne db id caller with
  | none => ((404, none), db)
  | some t =>
    let t2 := applyUpdate t b now
    if validTodo t2 then
      ((200, some t2), db.map (fun u => if u.id = id then t2 else u))
    else
      ((500, none), db)

/-- `router.delete('/:id')` of `src/server/routes/todos.js`: owner-scoped
`findOne`; 404 with the collection untouched when no owned document matches;
otherwise `Todo.findByIdAndDelete(req.params.id)` removes the document by id
alone.  The result is `(status, collection)`. -/
def deleteTodo (db : List Todo) (caller id : Nat) : Nat × List Todo :=
  match findOne db id caller with
  | none => (404, db)
  | some _ => (200, db.filter (fun t => t.id != id))

/-- The comparison behind `.sort({ createdAt: -1 })`: `a` comes no later than
`b` in the output when `a.createdAt` is at least `b.createdAt`. -/
def createdDesc (a b : Todo) : Prop := b.createdAt ≤ a.createdAt

instance : DecidableRel createdDesc :=
  fun a b => decidable_of_iff (b.createdAt ≤ a.createdAt) Iff.rfl

instance : IsTotal Todo createdDesc :=
  ⟨fun a b => Nat.le_total b.createdAt a.createdAt⟩

instance : IsTrans Todo createdDesc :=
  ⟨fun _ _ _ h1 h2 => Nat.le_trans h2 h1⟩

/-- `router.get('/')` of `src/server/routes/todos.js`:
`Todo.find({ user: req.user._id }).sort({ createdAt: -1 })` — the documents
owned by the caller, sorted by creation time descending (a stable sort of the
collection's insertion order). -/
def listTodos (db : List Todo) (caller : Nat) : List Todo :=
  List.insertionSort createdDesc (db.filter (fun t => t.user == caller))

/-- The in-memory React auth state of `src/contexts/AuthContext.tsx`:
`{user, token, isLoading}`; users are identified by their id. -/
structure AuthState where
  user : Option Nat
  token : Option String
  isLoading : Bool
deriving Repr, DecidableEq

/-- The client-side world the session manager acts on: the AsyncStorage
`'token'` entry (the Credential Store) and the in-memory React state. -/
structure ClientWorld where
  storedToken : Option String
  state : AuthState
deriving Repr, DecidableEq

/-- `checkAuthState` of `src/contexts/AuthContext.tsx`, as a function of the
stored token and of the outcome of `ApiService.getCurrentUser()` (the latter is
only consulted when a token exists).  On a stored token and a successful
identity check the state becomes authenticated and the store is untouched; on
any thrown error the handler removes the stored token and sets the anonymous
state.  The second component is the error propagated to the caller — always
`none`, since the catch block only logs. -/
def checkAuthState (store : Option String) (api : Except String Nat) :
    ClientWorld × Option String :=
  match store with
  | some tok =>
    match api with
    | .ok u => (⟨some tok, ⟨some u, some tok, false⟩⟩, none)
    | .error _ => (⟨none, ⟨none, none, false⟩⟩, none)
  | none => (⟨none, ⟨none, none, false⟩⟩, none)

/-- `login` of `src/contexts/AuthContext.tsx`, as a function of the current
world and of the outcome of `ApiService.login` (a `(user, token)` pair on
success).  Success persists the token and sets the authenticated state;
failure re-throws (second component `some e`) and performs no effect. -/
def login (w : ClientWorld) (api : Except String (Nat × String)) :
    ClientWorld × Option String :=
  match api with
  | .ok (u, t) => (⟨some t, ⟨some u, some t, false⟩⟩, none)
  | .error e => (w, some e)

/-- `register` of `src/contexts/AuthContext.tsx`: identical shape to `login`,
driven by the outcome of `ApiService.register`. -/
def register (w : ClientWorld) (api : Except String (Nat × String)) :
    ClientWorld × Option String :=
  match api with
  | .ok (u, t) => (⟨some t, ⟨some u, some t, false⟩⟩, none)
  | .error e => (w, some e)

/-- The primitive client effects the session manager performs against the
Credential Store and the React state. -/
inductive ClientEffect where
  | removeToken
  | setToken (t : String)
  | setState (s : AuthState)
deriving Repr, DecidableEq

/-- One effect applied to the world. -/
def stepEffect (w : ClientWorld) : ClientEffect → ClientWorld
  | .removeToken => ⟨none, w.state⟩
  | .setToken t => ⟨some t, w.state⟩
  | .setState s => ⟨w.storedToken, s⟩

/-- A sequence of effects applied in order. -/
def runEffects (w : ClientWorld) (es : List ClientEffect) : ClientWorld :=
  es.foldl stepEffect w

/-- The effect sequence of `logout` in `src/contexts/AuthContext.tsx`, in
source order: `await AsyncStorage.removeItem('token')`, then
`setAuthState({user: null, token: null, isLoading: false})`. -/
def logoutTrace : List ClientEffect :=
  [ClientEffect.removeToken, ClientEffect.setState ⟨none, none, false⟩]

/-- What the view-routing components render. -/
inductive Screen where
  | loadingIndicator
  | loginRedirect
  | tabsRedirect
  | tabsContent
deriving Repr, DecidableEq

/-- `IndexScreen` of `src/app/index.tsx`: a blocking `ActivityIndicator` while
`isLoading`; `<Redirect href="/(tabs)" />` when a user is present; otherwise
`<Redirect href="/(auth)/login" />`. -/
def indexScreen (s : AuthState) : Screen :=
  if s.isLoading then Screen.loadingIndicator
  else
    match s.user with
    | some _ => Screen.tabsRedirect
    | none => Screen.loginRedirect

/-- `TabLayout` of `src/app/(tabs)/_layout.tsx`: a blocking
`ActivityIndicator` while `isLoading`; `<Redirect href="/(auth)/login" />`
when no user; otherwise the authenticated tab tree. -/
def tabLayout (s : AuthState) : Screen :=
  if s.isLoading then Screen.loadingIndicator
  else
    match s.user with
    | none => Screen.loginRedirect
    | some _ => Screen.tabsContent

/-! ### Helper lemmas -/

/-- When the only document carrying an id belongs to someone else, the
owner-scoped lookup comes back empty. -/
lemma findOne_eq_none_of_not_owned (db : List Todo) (t : Todo) (caller : Nat)
    (huniq : ∀ u ∈ db, u.id = t.id → u = t) (howner : t.user ≠ caller) :
    findOne db t.id caller = none := by
  unfold findOne
  rw [List.find?_eq_none]
  intro u hu hp
  simp only [Bool.and_eq_true, beq_iff_eq] at hp
  have heq := huniq u hu hp.1
  subst heq
  exact howner hp.2

/-- The owner-scoped lookup run by the owner finds the document itself. -/
lemma findOne_owned (db : List Todo) (t : Todo) (hmem : t ∈ db)
    (huniq : ∀ u ∈ db, u.id = t.id → u = t) :
    findOne db t.id t.user = some t := by
  unfold findOne
  cases hf : db.find? (fun u => u.id == t.id && u.user == t.user) with
  | none =>
    rw [List.find?_eq_none] at hf
    exact absurd (by simp : ((t.id == t.id && t.user == t.user) = true)) (hf t hmem)
  | some u =>
    have hp := List.find?_some hf
    have hm := List.mem_of_find?_eq_some hf
    simp only [Bool.and_eq_true, beq_iff_eq] at hp
    rw [huniq u hm hp.1]

/-! ### Claims -/

/-- C1: for every Todo owned by user A and every different authenticated user
B, `PUT /api/todos/:id` and `DELETE /api/todos/:id` on that Todo's id answer
404 NotFound and leave the stored collection unchanged — existence under a
different owner is indistinguishable from non-existence. -/
theorem c1_cross_owner_update_delete_notFound (db : List Todo) (t : Todo)
    (b : UpdateBody) (other now : Nat) (_hmem : t ∈ db)
    (huniq : ∀ u ∈ db, u.id = t.id → u = t) (howner : t.user ≠ other) :
    updateTodo db other t.id b now = ((404, none), db) ∧
    deleteTodo db other t.id = (404, db) := by
  have hf := findOne_eq_none_of_not_owned db t other huniq howner
  constructor
  · unfold updateTodo
    rw [hf]
  · unfold deleteTodo
    rw [hf]

/-- Witness for C1: a singleton store owned by user 1, accessed as user 2. -/
theorem c1_cross_owner_update_delete_notFound_witness :
    updateTodo [⟨0, "a", "", false, "medium", none, 1, 0, 0⟩] 2 0
        ⟨none, none, some true, none, none⟩ 5 =
      ((404, none), [⟨0, "a", "", false, "medium", none, 1, 0, 0⟩]) ∧
    deleteTodo [⟨0, "a", "", false, "medium", none, 1, 0, 0⟩] 2 0 =
      (404, [⟨0, "a", "", false, "medium", none, 1, 0, 0⟩]) :=
  c1_cross_owner_update_delete_notFound
    [⟨0, "a", "", false, "medium", none, 1, 0, 0⟩]
    ⟨0, "a", "", false, "medium", none, 1, 0, 0⟩
    ⟨none, none, some true, none, none⟩ 2 5
    (by decide) (by decide) (by decide)

/-- C6: a startup with a stored token whose identity validation fails ends in
the anonymous state with the stored token removed, and no error is propagated
to the caller. -/
theorem c6_startup_failure_drops_to_anonymous (tok e : String) :
    checkAuthState (some tok) (Except.error e) =
      (⟨none, ⟨none, none, false⟩⟩, none) := rfl

/-- C7: `logout` from an authenticated world removes the stored token strictly
before the in-memory transition; the run ends anonymous with an empty store,
and at no point along the run is the in-memory state anonymous while a stored
token still exists. -/
theorem c7_logout_clears_store_before_state (w w' : ClientWorld)
    (hauth : w.state.user ≠ none)
    (hmem : w' ∈ List.scanl stepEffect w logoutTrace) :
    runEffects w logoutTrace = ⟨none, ⟨none, none, false⟩⟩ ∧
    (w'.state.user = none → w'.storedToken = none) := by
  constructor
  · rfl
  · have hcases : w' = w ∨ w' = ⟨none, w.state⟩ ∨ w' = ⟨none, ⟨none, none, false⟩⟩ := by
      simpa [logoutTrace, List.scanl, stepEffect] using hmem
    rcases hcases with h | h | h <;> subst h
    · intro hnone
      exact absurd hnone hauth
    · intro _
      rfl
    · intro _
      rfl

/-- Witness for C7: logging out of a concrete authenticated world, checked at
the final world of the run. -/
theorem c7_logout_clears_store_before_state_witness :
    runEffects ⟨some "tok", ⟨some 1, some "tok", false⟩⟩ logoutTrace =
      ⟨none, ⟨none, none, false⟩⟩ ∧
    ((⟨none, ⟨none, none, false⟩⟩ : ClientWorld).state.user = none →
      (⟨none, ⟨none, none, false⟩⟩ : ClientWorld).storedToken = none) :=
  c7_logout_clears_store_before_state
    ⟨some "tok", ⟨some 1, some "tok", false⟩⟩ ⟨none, ⟨none, none, false⟩⟩
    (by decide) (by decide)

/-- C8: a failing `login` or `register` leaves the world (state and Credential
Store) exactly as it was and re-raises the server's error to the caller. -/
theorem c8_login_register_failure_no_effect (w : ClientWorld) (e : String) :
    login w (Except.error e) = (w, some e) ∧
    register w (Except.error e) = (w, some e) :=
  ⟨rfl, rfl⟩

/-- C9: the view-routing components are pure functions of the session state:
while loading both render the blocking indicator and neither tree; with no
user both route to the login entry; with a user they route to the
authenticated tab tree. -/
theorem c9_view_router_pure_cases :
    (∀ (u : Option Nat) (tok : Option String),
      indexScreen ⟨u, tok, true⟩ = Screen.loadingIndicator ∧
      tabLayout ⟨u, tok, true⟩ = Screen.loadingIndicator) ∧
    (∀ tok : Option String,
      indexScreen ⟨none, tok, false⟩ = Screen.loginRedirect ∧
      tabLayout ⟨none, tok, false⟩ = Screen.loginRedirect) ∧
    (∀ (u : Nat) (tok : Option String),
      indexScreen ⟨some u, tok, false⟩ = Screen.tabsRedirect ∧
      tabLayout ⟨some u, tok, false⟩ = Screen.tabsContent) :=
  ⟨fun _ _ => ⟨rfl, rfl⟩, fun _ => ⟨rfl, rfl⟩, fun _ _ => ⟨rfl, rfl⟩⟩

/-- C2: `GET /api/todos` returns exactly the caller's Todos (a permutation of
the owner-filtered collection), sorted by `createdAt` descending; creating T1,
T2, T3 in that order and listing yields [T3, T2, T1]. -/
theorem c2_list_owned_sorted_desc (db : List Todo) (caller : Nat) :
    (listTodos db caller).Perm (db.filter (fun t => t.user == caller)) ∧
    List.Sorted createdDesc (listTodos db caller) ∧
    listTodos
        ((createTodo
          ((createTodo
            ((createTodo [] 7 ⟨some "T1", none, none, none⟩ 1 1).2) 7
            ⟨some "T2", none, none, none⟩ 2 2).2) 7
          ⟨some "T3", none, none, none⟩ 3 3).2) 7 =
      [⟨3, "T3", "", false, "medium", none, 7, 3, 3⟩,
       ⟨2, "T2", "", false, "medium", none, 7, 2, 2⟩,
       ⟨1, "T1", "", false, "medium", none, 7, 1, 1⟩] := by
  refine ⟨List.perm_insertionSort createdDesc _,
          List.sorted_insertionSort createdDesc _, ?_⟩
  decide

/-- C4: every successful create (201) returns a record owned by the caller,
not completed, with both timestamps set to the creation instant, priority
defaulting to `medium` when the body omitted it and description defaulting to
the empty string when the body omitted it. -/
theorem c4_create_defaults (db : List Todo) (caller : Nat) (b : CreateBody)
    (id now : Nat) (t : Todo) (db' : List Todo)
    (h : createTodo db caller b id now = ((201, some t), db')) :
    t.user = caller ∧ t.completed = false ∧ t.createdAt = now ∧
    t.updatedAt = now ∧
    (b.priority = none → t.priority = "medium") ∧
    (b.description = none → t.description = "") := by
  unfold createTodo at h
  cases hs : saveNewTodo caller b.title b.description b.priority
      (createDue b.dueDate) id now with
  | none =>
    rw [hs] at h
    simp at h
  | some t2 =>
    rw [hs] at h
    simp only [Prod.mk.injEq, Option.some.injEq] at h
    obtain ⟨⟨-, ht⟩, -⟩ := h
    subst ht
    unfold saveNewTodo at hs
    split at hs
    · exact absurd hs (by simp)
    · split at hs
      · exact absurd hs (by simp)
      · split at hs
        · obtain ht2 := Option.some.inj hs
          subst ht2
          refine ⟨rfl, rfl, rfl, rfl, ?_, ?_⟩
          · intro hpn
            show b.priority.getD "medium" = "medium"
            rw [hpn]
            rfl
          · intro hdn
            show b.description.getD "" = ""
            rw [hdn]
            rfl
        · exact absurd hs (by simp)

/-- Witness for C4: a create with only a title supplied. -/
theorem c4_create_defaults_witness :
    (⟨1, "x", "", false, "medium", none, 3, 9, 9⟩ : Todo).user = 3 ∧
    (⟨1, "x", "", false, "medium", none, 3, 9, 9⟩ : Todo).completed = false ∧
    (⟨1, "x", "", false, "medium", none, 3, 9, 9⟩ : Todo).createdAt = 9 ∧
    (⟨1, "x", "", false, "medium", none, 3, 9, 9⟩ : Todo).updatedAt = 9 ∧
    ((⟨some "x", none, none, none⟩ : CreateBody).priority = none →
      (⟨1, "x", "", false, "medium", none, 3, 9, 9⟩ : Todo).priority = "medium") ∧
    ((⟨some "x", none, none, none⟩ : CreateBody).description = none →
      (⟨1, "x", "", false, "medium", none, 3, 9, 9⟩ : Todo).description = "") :=
  c4_create_defaults [] 3 ⟨some "x", none, none, none⟩ 1 9
    ⟨1, "x", "", false, "medium", none, 3, 9, 9⟩
    [⟨1, "x", "", false, "medium", none, 3, 9, 9⟩] (by decide)

/-- C5: updating a caller-owned Todo with body exactly `{completed: true}`
answers 200 with the record changed only in `completed` and `updatedAt`, the
store rewritten accordingly; and, for an arbitrary update body, every omitted
field (and `createdAt`) is left unchanged by the route's field merge. -/
theorem c5_update_completed_only_frame (db : List Todo) (t : Todo)
    (b : UpdateBody) (now : Nat) (hmem : t ∈ db)
    (huniq : ∀ u ∈ db, u.id = t.id → u = t) (hvalid : validTodo t = true) :
    updateTodo db t.user t.id ⟨none, none, some true, none, none⟩ now =
      ((200, some { t with completed := true, updatedAt := now }),
       db.map (fun u =>
         if u.id = t.id then { t with completed := true, updatedAt := now }
         else u)) ∧
    (b.title = none → (applyUpdate t b now).title = t.title) ∧
    (b.description = none → (applyUpdate t b now).description = t.description) ∧
    (b.completed = none → (applyUpdate t b now).completed = t.completed) ∧
    (b.priority = none → (applyUpdate t b now).priority = t.priority) ∧
    (b.dueDate = none → (applyUpdate t b now).dueDate = t.dueDate) ∧
    (applyUpdate t b now).createdAt = t.createdAt := by
  have hf := findOne_owned db t hmem huniq
  have hv2 : validTodo (applyUpdate t ⟨none, none, some true, none, none⟩ now)
      = true := hvalid
  refine ⟨?_, ?_, ?_, ?_, ?_, ?_, rfl⟩
  · unfold updateTodo
    rw [hf]
    simp only [hv2, if_true]
    rfl
  · intro hn
    simp only [applyUpdate, hn]
  · intro hn
    simp only [applyUpdate, hn, Option.getD_none]
  · intro hn
    simp only [applyUpdate, hn, Option.getD_none]
  · intro hn
    simp only [applyUpdate, hn]
  · intro hn
    simp only [applyUpdate, hn]

/-- Witness for C5: the completed-only update of a concrete owned Todo, and
the frame conditions for the all-omitted body. -/
theorem c5_update_completed_only_frame_witness :
    updateTodo [⟨0, "a", "d", false, "high", some "x", 1, 0, 0⟩] 1 0
        ⟨none, none, some true, none, none⟩ 5 =
      ((200, some ⟨0, "a", "d", true, "high", some "x", 1, 0, 5⟩),
       [⟨0, "a", "d", true, "high", some "x", 1, 0, 5⟩]) ∧
    (applyUpdate ⟨0, "a", "d", false, "high", some "x", 1, 0, 0⟩
        ⟨none, none, none, none, none⟩ 5).title = "a" ∧
    (applyUpdate ⟨0, "a", "d", false, "high", some "x", 1, 0, 0⟩
        ⟨none, none, none, none, none⟩ 5).description = "d" ∧
    (applyUpdate ⟨0, "a", "d", false, "high", some "x", 1, 0, 0⟩
        ⟨none, none, none, none, none⟩ 5).completed = false ∧
    (applyUpdate ⟨0, "a", "d", false, "high", some "x", 1, 0, 0⟩
        ⟨none, none, none, none, none⟩ 5).priority = "high" ∧
    (applyUpdate ⟨0, "a", "d", false, "high", some "x", 1, 0, 0⟩
        ⟨none, none, none, none, none⟩ 5).dueDate = some "x" ∧
    (applyUpdate ⟨0, "a", "d", false, "high", some "x", 1, 0, 0⟩
        ⟨none, none, none, none, none⟩ 5).createdAt = 0 :=
  ⟨(c5_update_completed_only_frame
      [⟨0, "a", "d", false, "high", some "x", 1, 0, 0⟩]
      ⟨0, "a", "d", false, "high", some "x", 1, 0, 0⟩
      ⟨none, none, none, none, none⟩ 5
      (by decide) (by decide) (by decide)).1,
   (c5_update_completed_only_frame
      [⟨0, "a", "d", false, "high", some "x", 1, 0, 0⟩]
      ⟨0, "a", "d", false, "high", some "x", 1, 0, 0⟩
      ⟨none, none, none, none, none⟩ 5
      (by decide) (by decide) (by decide)).2.1 rfl,
   (c5_update_completed_only_frame
      [⟨0, "a", "d", false, "high", some "x", 1, 0, 0⟩]
      ⟨0, "a", "d", false, "high", some "x", 1, 0, 0⟩
      ⟨none, none, none, none, none⟩ 5
      (by decide) (by decide) (by decide)).2.2.1 rfl,
   (c5_update_completed_only_frame
      [⟨0, "a", "d", false, "high", some "x", 1, 0, 0⟩]
      ⟨0, "a", "d", false, "high", some "x", 1, 0, 0⟩
      ⟨none, none, none, none, none⟩ 5
      (by decide) (by decide) (by decide)).2.2.2.1 rfl,
   (c5_update_completed_only_frame
      [⟨0, "a", "d", false, "high", some "x", 1, 0, 0⟩]
      ⟨0, "a", "d", false, "high", some "x", 1, 0, 0⟩
      ⟨none, none, none, none, none⟩ 5
      (by decide) (by decide) (by decide)).2.2.2.2.1 rfl,
   (c5_update_completed_only_frame
      [⟨0, "a", "d", false, "high", some "x", 1, 0, 0⟩]
      ⟨0, "a", "d", false, "high", some "x", 1, 0, 0⟩
      ⟨none, none, none, none, none⟩ 5
      (by decide) (by decide) (by decide)).2.2.2.2.2.1 rfl,
   (c5_update_completed_only_frame
      [⟨0, "a", "d", false, "high", some "x", 1, 0, 0⟩]
      ⟨0, "a", "d", false, "high", some "x", 1, 0, 0⟩
      ⟨none, none, none, none, none⟩ 5
      (by decide) (by decide) (by decide)).2.2.2.2.2.2⟩

/-- C10: in the route's field merge a supplied but falsy `title`, `priority`
or `dueDate` (the empty string) leaves the stored field unchanged, while a
supplied `description` or `completed` is honoured even when falsy (empty
string, `false`). -/
theorem c10_update_falsy_fields (t : Todo) (b : UpdateBody) (now : Nat)
    (s : String) (c : Bool) :
    (b.title = some "" → (applyUpdate t b now).title = t.title) ∧
    (b.priority = some "" → (applyUpdate t b now).priority = t.priority) ∧
    (b.dueDate = some "" → (applyUpdate t b now).dueDate = t.dueDate) ∧
    (b.description = some s → (applyUpdate t b now).description = s) ∧
    (b.completed = some c → (applyUpdate t b now).completed = c) := by
  refine ⟨?_, ?_, ?_, ?_, ?_⟩ <;> intro hn <;> simp [applyUpdate, hn]

/-- Witness for C10: a body supplying empty `title`, `priority`, `dueDate`
and `description` and `completed = false`. -/
theorem c10_update_falsy_fields_witness :
    (applyUpdate ⟨0, "a", "d", true, "high", some "x", 1, 0, 0⟩
        ⟨some "", some "", some false, some "", some ""⟩ 9).title = "a" ∧
    (applyUpdate ⟨0, "a", "d", true, "high", some "x", 1, 0, 0⟩
        ⟨some "", some "", some false, some "", some ""⟩ 9).priority = "high" ∧
    (applyUpdate ⟨0, "a", "d", true, "high", some "x", 1, 0, 0⟩
        ⟨some "", some "", some false, some "", some ""⟩ 9).dueDate = some "x" ∧
    (applyUpdate ⟨0, "a", "d", true, "high", some "x", 1, 0, 0⟩
        ⟨some "", some "", some false, some "", some ""⟩ 9).description = "" ∧
    (applyUpdate ⟨0, "a", "d", true, "high", some "x", 1, 0, 0⟩
        ⟨some "", some "", some false, some "", some ""⟩ 9).completed = false :=
  ⟨(c10_update_falsy_fields ⟨0, "a", "d", true, "high", some "x", 1, 0, 0⟩
      ⟨some "", some "", some false, some "", some ""⟩ 9 "" false).1 rfl,
   (c10_update_falsy_fields ⟨0, "a", "d", true, "high", some "x", 1, 0, 0⟩
      ⟨some "", some "", some false, some "", some ""⟩ 9 "" false).2.1 rfl,
   (c10_update_falsy_fields ⟨0, "a", "d", true, "high", some "x", 1, 0, 0⟩
      ⟨some "", some "", some false, some "", some ""⟩ 9 "" false).2.2.1 rfl,
   (c10_update_falsy_fields ⟨0, "a", "d", true, "high", some "x", 1, 0, 0⟩
      ⟨some "", some "", some false, some "", some ""⟩ 9 "" false).2.2.2.1 rfl,
   (c10_update_falsy_fields ⟨0, "a", "d", true, "high", some "x", 1, 0, 0⟩
      ⟨some "", some "", some false, some "", some ""⟩ 9 "" false).2.2.2.2 rfl⟩

/-- C3 fails as stated: a create with an empty title is answered by the
route's catch-all with HTTP 500, not with a 400 Validation error (no record
is created either way). -/
theorem c3_counterexample_create_500_not_400 :
    (createTodo [] 1 ⟨some "", none, none, none⟩ 1 0).1.1 = 500 ∧
    (createTodo [] 1 ⟨some "", none, none, none⟩ 1 0).1.1 ≠ 400 ∧
    (createTodo [] 1 ⟨some "", none, none, none⟩ 1 0).2 = [] := by
  decide

/-- C3 (amended): a create whose title is missing or empty fails — surfaced
by the route's catch-all as a generic server error (HTTP 500) — and creates
no record. -/
theorem c3_amended_create_bad_title_500 (db : List Todo) (caller : Nat)
    (b : CreateBody) (id now : Nat) (h : b.title = none ∨ b.title = some "") :
    (createTodo db caller b id now).1 = (500, none) ∧
    (createTodo db caller b id now).2 = db := by
  unfold createTodo saveNewTodo
  rcases h with h | h <;> rw [h] <;> simp

/-- Witness for the amended C3: a create with the title absent. -/
theorem c3_amended_create_bad_title_500_witness :
    (createTodo [] 1 ⟨none, none, none, none⟩ 1 0).1 = (500, none) ∧
    (createTodo [] 1 ⟨none, none, none, none⟩ 1 0).2 = [] :=
  c3_amended_create_bad_title_500 [] 1 ⟨none, none, none, none⟩ 1 0 (Or.inl rfl)

end TodoApp
